import Mathlib

/-!
# Type ID validation (`ckb_type_id.h`)

A shallow embedding of `ckb_type_id.h`: the script argument extractor
`_ckb_load_type_id`, the cell group prober `_ckb_has_type_id_cell`, the
creation-output locator `_ckb_locate_first_type_id_output_index` and the
entry point `ckb_validate_type_id`.

The header includes `blake2b.h`, `blockchain.h` and `ckb_syscalls.h`, none of
which is part of the sources at hand.  What they provide (the system calls,
the molecule reader of `Script`, the hash and the numeric constants) is taken
as a parameter: the structure `Host`.  Buffers are memories `Nat → Nat`
(byte at a position), integers of type `int` are `Int`, `size_t` and
`uint64_t` are `Nat` with an explicit `% 2 ^ 64` where the C arithmetic can
wrap.
-/

namespace TypeId

/-! ## The host -/

/-- The source selector of a system call: the global input or output sequence
of the transaction, or the group view scoped to the current script. -/
inductive Source where
  | INPUT
  | OUTPUT
  | GROUP_INPUT
  | GROUP_OUTPUT
  deriving DecidableEq, Repr

/-- The field selector of `ckb_load_cell_by_field`. -/
inductive CellField where
  | LOCK_HASH
  | TYPE_HASH
  deriving DecidableEq, Repr

/-- What a loading system call leaves behind: its return value, the length it
stores through `len`, and the memory seen through the buffer pointer once the
call is over (`mem k` is the byte `k` positions after the start of the
buffer, positions taken modulo `2 ^ 64`). -/
structure Loaded where
  ret : Int
  len : Nat
  mem : Nat → Nat

/-- The collaborators of `ckb_type_id.h`: the constants of `ckb_consts.h` and
`molecule_reader.h`, the system calls of `ckb_syscalls.h` as the answers of the
host for one transaction, the `Script` reader of `blockchain.h` and the hash
of `blake2b.h`. -/
structure Host where
  /-- The value of `CKB_SUCCESS`. -/
  CKB_SUCCESS : Int
  /-- The value of `CKB_USER_ERROR`. -/
  CKB_USER_ERROR : Int
  /-- The value of `CKB_INDEX_OUT_OF_BOUND`, the host's answer on range exhaustion. -/
  CKB_INDEX_OUT_OF_BOUND : Int
  /-- The value of `CKB_LENGTH_NOT_ENOUGH`. -/
  CKB_LENGTH_NOT_ENOUGH : Int
  /-- The value of `MOL_OK`. -/
  MOL_OK : Int
  /-- The answer to `ckb_load_script(buf, &len, 0)` for a buffer of the given capacity. -/
  load_script : Nat → Loaded
  /-- The answer to `ckb_load_script_hash(buf, &len, 0)` for a buffer of the given capacity. -/
  load_script_hash : Nat → Loaded
  /-- The return value of `ckb_load_cell(NULL, &len, 0, index, source)` with `len = 0`. -/
  load_cell : Nat → Source → Int
  /-- The answer to `ckb_load_cell_by_field(buf, &len, 0, index, source, field)`
  for a buffer of the given capacity. -/
  load_cell_by_field : Nat → Nat → Source → CellField → Loaded
  /-- The answer to `ckb_load_input(buf, &len, 0, index, source)` for a buffer
  of the given capacity. -/
  load_input : Nat → Nat → Source → Loaded
  /-- The result of `MolReader_Script_verify(&seg, false)` on the segment that starts
  at the buffer and has the given size. -/
  Script_verify : (Nat → Nat) → Nat → Int
  /-- The segment `MolReader_Bytes_raw_bytes(MolReader_Script_get_args(&seg))`:
  where its pointer lies, counted from the start of the script buffer, and its size. -/
  Script_args_raw_bytes : (Nat → Nat) → Nat → Nat × Nat
  /-- The 32-byte digest of a message under the personalised hash of `blake2b.h`. -/
  blake2b_digest : List Nat → List Nat

/-- The `n` bytes of a memory from position `start` on, as `memcpy` and the hash
read them; a position past the end of the address space wraps. -/
def read_bytes (mem : Nat → Nat) (start n : Nat) : List Nat :=
  (List.range n).map (fun k => mem ((start + k) % 2 ^ 64))

/-- The bytes of a `uint64_t` in memory order (little endian), as read through
`(uint8_t*)(&index)`. -/
def le_bytes (v : Nat) (n : Nat) : List Nat :=
  (List.range n).map (fun k => (v / 256 ^ k) % 256)

/-- Modelled from the spec: `ckb_checked_load_input` of `ckb_syscalls.h` is not
among the sources. "Fetch the raw serialized bytes of the transaction's first
global input reference from the host (fixed maximum size; fail with
`LoadFailure` if retrieval fails or exceeds the allotted buffer)": the host's
load, turned into a failure when it succeeds with a length above the capacity. -/
def ckb_checked_load_input (H : Host) (cap index : Nat) (source : Source) : Loaded :=
  let r := H.load_input cap index source
  if r.ret = H.CKB_SUCCESS ∧ r.len > cap then { r with ret := H.CKB_LENGTH_NOT_ENOUGH } else r

/-- Modelled from the spec: the hash state of `blake2b.h`, which is not among the
sources. "A 32-byte cryptographic hash function supporting incremental update
and a fixed personalization tag, producing a 32-byte digest": the state is the
digest length and the message fed so far. -/
structure blake2b_state where
  outlen : Nat
  msg : List Nat

/-- Modelled from the spec: `blake2b_init` of `blake2b.h`, an empty message. -/
def blake2b_init (outlen : Nat) : blake2b_state := ⟨outlen, []⟩

/-- Modelled from the spec: `blake2b_update` of `blake2b.h`, incremental update. -/
def blake2b_update (S : blake2b_state) (data : List Nat) : blake2b_state :=
  { S with msg := S.msg ++ data }

/-- Modelled from the spec: `blake2b_final` of `blake2b.h`, the digest of the
whole message. -/
def blake2b_final (H : Host) (S : blake2b_state) : List Nat :=
  H.blake2b_digest S.msg

/-! ## The functions of `ckb_type_id.h` -/

/-- `_ckb_load_type_id(offset, type_id)`: the return value and what was copied
into `type_id` (`none` when nothing was written). -/
def _ckb_load_type_id (H : Host) (offset : Nat) : Int × Option (List Nat) :=
  let r := H.load_script 32768
  if r.ret ≠ H.CKB_SUCCESS then (H.CKB_USER_ERROR, none)
  else if r.len > 32768 then (H.CKB_USER_ERROR, none)
  else
    -- `script_seg.size = len` is exact: `len` is at most 32768 here
    if H.Script_verify r.mem r.len ≠ H.MOL_OK then (H.CKB_USER_ERROR, none)
    else
      let args_bytes_seg := H.Script_args_raw_bytes r.mem r.len
      if (offset + 32) % 2 ^ 64 > args_bytes_seg.2 then (H.CKB_USER_ERROR, none)
      else (H.CKB_SUCCESS, some (read_bytes r.mem (args_bytes_seg.1 + offset) 32))

/-- `_ckb_has_type_id_cell(index, is_input)`: 1 for true, 0 for false. -/
def _ckb_has_type_id_cell (H : Host) (index : Nat) (is_input : Int) : Int :=
  let source := if is_input = 1 then Source.GROUP_INPUT else Source.GROUP_OUTPUT
  let ret := H.load_cell index source
  if ret = H.CKB_SUCCESS then 1 else 0

/-- The `while (1)` loop of `_ckb_locate_first_type_id_output_index`, started at
position `i`: the return value and the position stored through `index` (`none`
when the function returns before the store).  The result is `none` when `fuel`
iterations do not end the loop. -/
def locate_loop (H : Host) (current_script_hash : Nat → Nat) :
    Nat → Nat → Option (Int × Option Nat)
  | 0, _ => none
  | fuel + 1, i =>
    let r := H.load_cell_by_field 32 i Source.OUTPUT CellField.TYPE_HASH
    if r.ret ≠ H.CKB_SUCCESS then some (r.ret, none)
    else if r.len ≠ 32 then some (H.CKB_USER_ERROR, none)
    else if read_bytes r.mem 0 32 = read_bytes current_script_hash 0 32 then
      some (H.CKB_SUCCESS, some i)
    else locate_loop H current_script_hash fuel ((i + 1) % 2 ^ 64)

/-- `_ckb_locate_first_type_id_output_index(index)`. -/
def _ckb_locate_first_type_id_output_index (H : Host) (fuel : Nat) :
    Option (Int × Option Nat) :=
  let r := H.load_script_hash 32
  if r.ret ≠ H.CKB_SUCCESS then some (r.ret, none)
  else if r.len ≠ 32 then some (H.CKB_USER_ERROR, none)
  else locate_loop H r.mem fuel 0

/-- `ckb_validate_type_id(offset)`; `none` when the scan of the locator does not
end within `fuel` iterations. -/
def ckb_validate_type_id (H : Host) (fuel : Nat) (offset : Nat) : Option Int :=
  let has_second_type_id_input := _ckb_has_type_id_cell H 1 1
  let has_second_type_id_output := _ckb_has_type_id_cell H 1 0
  if has_second_type_id_input ≠ 0 ∨ has_second_type_id_output ≠ 0 then
    some H.CKB_USER_ERROR
  else
    let has_first_type_id_input := _ckb_has_type_id_cell H 0 1
    if has_first_type_id_input = 0 then
      let e := _ckb_load_type_id H offset
      if e.1 ≠ H.CKB_SUCCESS then some e.1
      else
        match _ckb_locate_first_type_id_output_index H fuel with
        | none => none
        | some l =>
          if l.1 ≠ H.CKB_SUCCESS then some l.1
          else
            let index := l.2.getD 0xFFFFFFFFFFFFFFFF
            let r := ckb_checked_load_input H 128 0 Source.INPUT
            if r.ret ≠ H.CKB_SUCCESS then some r.ret
            else
              let blake2b_ctx := blake2b_init 32
              let blake2b_ctx := blake2b_update blake2b_ctx (read_bytes r.mem 0 r.len)
              let blake2b_ctx := blake2b_update blake2b_ctx (le_bytes index 8)
              let expected_type_id := blake2b_final H blake2b_ctx
              if some expected_type_id ≠ e.2 then some H.CKB_USER_ERROR
              else some H.CKB_SUCCESS
    else some H.CKB_SUCCESS

/-! ## Notions of the specification, read off the answers of the host -/

/-- A cell exists at a position of a group view: the host's fetch succeeds. -/
def group_cell_exists (H : Host) (index : Nat) (source : Source) : Prop :=
  H.load_cell index source = H.CKB_SUCCESS

instance (H : Host) (index : Nat) (source : Source) :
    Decidable (group_cell_exists H index source) := by
  unfold group_cell_exists; infer_instance

/-- The creation path: no group cell at position 1 on either side and no group
input at position 0. -/
def creation_path (H : Host) : Prop :=
  ¬ group_cell_exists H 1 Source.GROUP_INPUT ∧ ¬ group_cell_exists H 1 Source.GROUP_OUTPUT ∧
    ¬ group_cell_exists H 0 Source.GROUP_INPUT

instance (H : Host) : Decidable (creation_path H) := by
  unfold creation_path; infer_instance

/-- The current script hash, as the host stores it in a 32-byte buffer. -/
def current_script_hash (H : Host) : List Nat :=
  read_bytes (H.load_script_hash 32).mem 0 32

/-- The type-script hash of the global output at position `j` is `h`: the host's
fetch of that field succeeds with 32 bytes, which are `h`. -/
def output_type_hash_is (H : Host) (j : Nat) (h : List Nat) : Prop :=
  (H.load_cell_by_field 32 j Source.OUTPUT CellField.TYPE_HASH).ret = H.CKB_SUCCESS ∧
    (H.load_cell_by_field 32 j Source.OUTPUT CellField.TYPE_HASH).len = 32 ∧
    read_bytes (H.load_cell_by_field 32 j Source.OUTPUT CellField.TYPE_HASH).mem 0 32 = h

instance (H : Host) (j : Nat) (h : List Nat) : Decidable (output_type_hash_is H j h) := by
  unfold output_type_hash_is; infer_instance

/-- The scan passes position `j`: the host's fetch succeeds with 32 bytes that
differ from the current script hash. -/
def scan_passes (H : Host) (cur : Nat → Nat) (j : Nat) : Prop :=
  (H.load_cell_by_field 32 j Source.OUTPUT CellField.TYPE_HASH).ret = H.CKB_SUCCESS ∧
    (H.load_cell_by_field 32 j Source.OUTPUT CellField.TYPE_HASH).len = 32 ∧
    read_bytes (H.load_cell_by_field 32 j Source.OUTPUT CellField.TYPE_HASH).mem 0 32 ≠
      read_bytes cur 0 32

instance (H : Host) (cur : Nat → Nat) (j : Nat) : Decidable (scan_passes H cur j) := by
  unfold scan_passes; infer_instance

/-- The raw argument bytes of the current script, as the reader of `Script`
delimits them in the loaded script. -/
def current_script_args (H : Host) : List Nat :=
  let r := H.load_script 32768
  let a := H.Script_args_raw_bytes r.mem r.len
  read_bytes r.mem a.1 a.2

/-- The bytes of the first global input, as loaded into the 128-byte buffer. -/
def first_input_bytes (H : Host) : List Nat :=
  let r := ckb_checked_load_input H 128 0 Source.INPUT
  read_bytes r.mem 0 r.len

/-- The identifier the creation path derives for the output at position `i`. -/
def derived_type_id (H : Host) (i : Nat) : List Nat :=
  H.blake2b_digest (first_input_bytes H ++ le_bytes i 8)

/-- The group views are densely indexed: a group cell at position `k + 1`
implies one at position `k`, on the input side and on the output side. -/
def dense_groups (H : Host) : Prop :=
  ∀ k, (group_cell_exists H (k + 1) Source.GROUP_INPUT → group_cell_exists H k Source.GROUP_INPUT) ∧
    (group_cell_exists H (k + 1) Source.GROUP_OUTPUT → group_cell_exists H k Source.GROUP_OUTPUT)

/-- Two hosts give the same answers to every query `ckb_validate_type_id` can
make, with the same constants, the same reader of `Script` and the same hash:
the same snapshot of the transaction. -/
def same_answers (H1 H2 : Host) : Prop :=
  H1.CKB_SUCCESS = H2.CKB_SUCCESS ∧ H1.CKB_USER_ERROR = H2.CKB_USER_ERROR ∧
    H1.CKB_LENGTH_NOT_ENOUGH = H2.CKB_LENGTH_NOT_ENOUGH ∧ H1.MOL_OK = H2.MOL_OK ∧
    H1.load_cell 1 Source.GROUP_INPUT = H2.load_cell 1 Source.GROUP_INPUT ∧
    H1.load_cell 1 Source.GROUP_OUTPUT = H2.load_cell 1 Source.GROUP_OUTPUT ∧
    H1.load_cell 0 Source.GROUP_INPUT = H2.load_cell 0 Source.GROUP_INPUT ∧
    H1.load_script 32768 = H2.load_script 32768 ∧
    H1.load_script_hash 32 = H2.load_script_hash 32 ∧
    (∀ j, H1.load_cell_by_field 32 j Source.OUTPUT CellField.TYPE_HASH =
      H2.load_cell_by_field 32 j Source.OUTPUT CellField.TYPE_HASH) ∧
    H1.load_input 128 0 Source.INPUT = H2.load_input 128 0 Source.INPUT ∧
    (∀ mem size, H1.Script_verify mem size = H2.Script_verify mem size) ∧
    (∀ mem size, H1.Script_args_raw_bytes mem size = H2.Script_args_raw_bytes mem size) ∧
    ∀ msg, H1.blake2b_digest msg = H2.blake2b_digest msg

/-- The host with other answers to everything read after the extraction: the load
of the script hash, the type-hash fetches, the load of the input and the hash. -/
def after_extraction (H : Host) (h' : Nat → Loaded)
    (f' : Nat → Nat → Source → CellField → Loaded) (i' : Nat → Nat → Source → Loaded)
    (d' : List Nat → List Nat) : Host :=
  { H with load_script_hash := h', load_cell_by_field := f', load_input := i', blake2b_digest := d' }

/-- The host with other answers to everything read after the location: the load of
the input and the hash. -/
def after_location (H : Host) (i' : Nat → Nat → Source → Loaded) (d' : List Nat → List Nat) :
    Host :=
  { H with load_input := i', blake2b_digest := d' }

/-- The host with another hash, the one thing read after the load of the input. -/
def after_input_load (H : Host) (d' : List Nat → List Nat) : Host :=
  { H with blake2b_digest := d' }

/-! ## A sample host -/

/-- A memory holding the given bytes from position 0 on. -/
def mem_of (bs : List Nat) : Nat → Nat := fun k => bs.getD k 0

/-- The 32-bit little-endian number at a position of a memory. -/
def le32_at (mem : Nat → Nat) (p : Nat) : Nat :=
  mem p + 256 * mem (p + 1) + 65536 * mem (p + 2) + 16777216 * mem (p + 3)

/-- A serialized `Script` table: header of four numbers (total size and the
offsets 16, 48, 49 of the three fields), a 32-byte code hash, the hash type,
and the args as a length-prefixed byte vector. -/
def sample_script (args : List Nat) : List Nat :=
  le_bytes (53 + args.length) 4 ++ le_bytes 16 4 ++ le_bytes 48 4 ++ le_bytes 49 4 ++
    List.replicate 32 170 ++ [1] ++ le_bytes args.length 4 ++ args

/-- The script hash of the sample script. -/
def sample_hash : List Nat := (List.range 32).map (fun k => k + 1)

/-- The serialized first input of the sample transaction (44 bytes). -/
def sample_input : List Nat := (List.range 44).map (fun k => 3 * k + 5)

/-- A stand-in for the hash in the sample host. -/
def sample_digest (msg : List Nat) : List Nat :=
  (List.range 32).map (fun k => (msg.sum + 7 * k) % 256)

/-- A host for a transaction with `gi` group inputs and `go` group outputs, the
current script with the given args, and the given global outputs (the type
hash of each, `none` for an output without a type script, for which the host
answers 2). The codes are 0 for success and 1 for range exhaustion; 100 stands
for `CKB_USER_ERROR`. -/
def sample_host (gi go : Nat) (args : List Nat) (outputs : List (Option (List Nat))) : Host where
  CKB_SUCCESS := 0
  CKB_USER_ERROR := 100
  CKB_INDEX_OUT_OF_BOUND := 1
  CKB_LENGTH_NOT_ENOUGH := 3
  MOL_OK := 0
  load_script := fun cap =>
    ⟨0, (sample_script args).length, mem_of ((sample_script args).take cap)⟩
  load_script_hash := fun cap => ⟨0, 32, mem_of (sample_hash.take cap)⟩
  load_cell := fun index source =>
    match source with
    | Source.GROUP_INPUT => if index < gi then 0 else 1
    | Source.GROUP_OUTPUT => if index < go then 0 else 1
    | Source.INPUT => if index = 0 then 0 else 1
    | Source.OUTPUT => if index < outputs.length then 0 else 1
  load_cell_by_field := fun cap index _ _ =>
    match outputs.get? index with
    | none => ⟨1, 0, mem_of []⟩
    | some none => ⟨2, 0, mem_of []⟩
    | some (some h) => ⟨0, 32, mem_of (h.take cap)⟩
  load_input := fun cap index _ =>
    if index = 0 then ⟨0, 44, mem_of (sample_input.take cap)⟩ else ⟨1, 0, mem_of []⟩
  Script_verify := fun mem size =>
    if 53 ≤ size ∧ le32_at mem 0 = size ∧ le32_at mem 4 = 16 ∧ le32_at mem 8 = 48 ∧
        le32_at mem 12 = 49 ∧ 53 + le32_at mem 49 = size then 0 else 1
  Script_args_raw_bytes := fun mem _ => (53, le32_at mem 49)
  blake2b_digest := sample_digest

/-- Scenario B as a host: no group input, one group output, the 32 bytes of the
args all zero, the only output carrying the current script. -/
def scenario_B : Host := sample_host 0 1 (List.replicate 32 0) [some sample_hash]

/-- Scenario C as a host: group inputs at positions 0 and 1. -/
def scenario_C : Host := sample_host 2 1 [] []

/-- Scenario D as a host: one group input, one group output, args too short to
hold an identifier, no output carrying the current script. -/
def scenario_D : Host := sample_host 1 1 [222, 173] [none]

/-- A creation transaction whose first output has no type script and whose second
output carries the current script, the args holding the identifier derived for
position 1. -/
def untyped_first_output_host : Host :=
  sample_host 0 1 (sample_digest (sample_input ++ le_bytes 1 8)) [none, some sample_hash]

/-- A host whose current script has 32 bytes of args. -/
def wrap_host : Host := sample_host 0 1 (List.replicate 32 9) [some sample_hash]

/-- A host whose every cell fetch fails with the code 4, which is neither success
nor range exhaustion. -/
def probe_failure_host : Host :=
  { sample_host 0 1 [] [] with load_cell := fun _ _ => 4 }

/-- A creation-path host with empty args and a single output, of another script. -/
def no_match_short_args_host : Host := sample_host 0 1 [] [some (List.replicate 32 0)]

/-- A creation-path host with 32 bytes of args and two outputs, of another script. -/
def no_match_host : Host :=
  sample_host 0 1 (List.replicate 32 9) [some (List.replicate 32 0), some (List.replicate 32 5)]

/-- A host whose script load reports more bytes than the buffer holds. -/
def oversized_script_host : Host :=
  { sample_host 0 1 [] [] with load_script := fun _ => ⟨0, 40000, mem_of []⟩ }

/-- A creation-path host whose current script is a well-formed table of 40000
bytes, more than the buffer of the extractor holds: its 39947 bytes of args
start with the identifier derived for position 0 and go on with zeros. -/
def oversized_args_host : Host :=
  { sample_host 0 1 [] [some sample_hash] with
    load_script := fun _ =>
      ⟨0, 40000, mem_of (le_bytes 40000 4 ++ le_bytes 16 4 ++ le_bytes 48 4 ++ le_bytes 49 4 ++
        List.replicate 32 170 ++ [1] ++ le_bytes 39947 4 ++
        sample_digest (sample_input ++ le_bytes 0 8))⟩ }

/-- A creation transaction whose first output carries another script and whose
second output carries the current script, the args holding the identifier
derived for position 1. -/
def second_output_host : Host :=
  sample_host 0 1 (sample_digest (sample_input ++ le_bytes 1 8))
    [some (List.replicate 32 0), some sample_hash]

/-- A host whose fetch of the type hash of output 0 succeeds with a length of 20,
and whose outputs end there. -/
def bad_length_host : Host :=
  { sample_host 0 1 [] [] with
    load_cell_by_field := fun _ index _ _ =>
      if index = 0 then ⟨0, 20, mem_of []⟩ else ⟨1, 0, mem_of []⟩ }

/-- Scenario B seen through another host: the same answers to the queries of the
validator, other answers elsewhere (group cells from position 2 on, another
value for range exhaustion). -/
def scenario_B_elsewhere : Host :=
  { scenario_B with
    CKB_INDEX_OUT_OF_BOUND := 9
    load_cell := fun index source => if index ≤ 1 then scenario_B.load_cell index source else 0 }

/-- A host with a group input at position 0 whose every other cell fetch fails
with the code 4, which is neither success nor range exhaustion. -/
def failed_probe_host : Host :=
  { sample_host 1 1 [] [] with
    load_cell := fun index source => if index = 0 ∧ source = Source.GROUP_INPUT then 0 else 4 }

/-- Scenario A with a first input of 200 bytes, more than the 128-byte buffer. -/
def oversized_input_host : Host :=
  { sample_host 0 1 (sample_digest (sample_input ++ le_bytes 0 8)) [some sample_hash] with
    load_input := fun cap _ _ => ⟨0, 200, mem_of (sample_input.take cap)⟩ }

/-! ## The prober and the two guards of the validator -/

theorem has_type_id_cell_input (H : Host) (index : Nat) :
    _ckb_has_type_id_cell H index 1 =
      if H.load_cell index Source.GROUP_INPUT = H.CKB_SUCCESS then 1 else 0 := by
  simp [_ckb_has_type_id_cell]

theorem has_type_id_cell_output (H : Host) (index : Nat) :
    _ckb_has_type_id_cell H index 0 =
      if H.load_cell index Source.GROUP_OUTPUT = H.CKB_SUCCESS then 1 else 0 := by
  simp [_ckb_has_type_id_cell]

/-- On the creation path the validator is the chain of the extractor, the
locator, the load of the first input and the comparison. -/
theorem validate_creation_path (H : Host) (fuel offset : Nat) (hc : creation_path H) :
    ckb_validate_type_id H fuel offset =
      if (_ckb_load_type_id H offset).1 ≠ H.CKB_SUCCESS then some (_ckb_load_type_id H offset).1
      else
        match _ckb_locate_first_type_id_output_index H fuel with
        | none => none
        | some l =>
          if l.1 ≠ H.CKB_SUCCESS then some l.1
          else if (ckb_checked_load_input H 128 0 Source.INPUT).ret ≠ H.CKB_SUCCESS then
            some (ckb_checked_load_input H 128 0 Source.INPUT).ret
          else if some (derived_type_id H (l.2.getD 0xFFFFFFFFFFFFFFFF)) ≠
              (_ckb_load_type_id H offset).2 then some H.CKB_USER_ERROR
          else some H.CKB_SUCCESS := by
  obtain ⟨h1, h2, h3⟩ := hc
  unfold group_cell_exists at h1 h2 h3
  simp only [ckb_validate_type_id, has_type_id_cell_input, has_type_id_cell_output, h1, h2, h3,
    derived_type_id, first_input_bytes, blake2b_final, blake2b_update, blake2b_init]
  simp

/-- C1: on the creation path, when the extractor, the locator and the load of the
first input succeed and the identifier read from the args differs from the hash
of the first input's bytes followed by the 8 little-endian bytes of the located
index, `ckb_validate_type_id` returns `CKB_USER_ERROR`, which is not success. -/
theorem C1_mismatch_is_user_error (H : Host) (fuel offset : Nat) (id : List Nat) (i : Nat)
    (hc : creation_path H)
    (hext : _ckb_load_type_id H offset = (H.CKB_SUCCESS, some id))
    (hloc : _ckb_locate_first_type_id_output_index H fuel = some (H.CKB_SUCCESS, some i))
    (hin : (ckb_checked_load_input H 128 0 Source.INPUT).ret = H.CKB_SUCCESS)
    (hdiff : id ≠ H.blake2b_digest (first_input_bytes H ++ le_bytes i 8))
    (hue : H.CKB_USER_ERROR ≠ H.CKB_SUCCESS) :
    ckb_validate_type_id H fuel offset = some H.CKB_USER_ERROR ∧
      ckb_validate_type_id H fuel offset ≠ some H.CKB_SUCCESS := by
  have hv : ckb_validate_type_id H fuel offset = some H.CKB_USER_ERROR := by
    rw [validate_creation_path H fuel offset hc, hext, hloc]
    have : ¬ derived_type_id H i = id := fun h => hdiff (by rw [← h]; rfl)
    simp [hin, this]
  refine ⟨hv, ?_⟩
  rw [hv]
  simpa using hue

theorem C1_mismatch_is_user_error_witness :
    ckb_validate_type_id scenario_B 1 0 = some scenario_B.CKB_USER_ERROR ∧
      ckb_validate_type_id scenario_B 1 0 ≠ some scenario_B.CKB_SUCCESS :=
  C1_mismatch_is_user_error scenario_B 1 0 (List.replicate 32 0) 0 (by decide) (by decide)
    (by decide) (by decide) (by decide) (by decide)

/-- C3: when a group input or a group output exists at position 1,
`ckb_validate_type_id` returns `CKB_USER_ERROR` for every offset, whatever the
other answers of the host are. -/
theorem C3_second_cell_is_user_error (H : Host) (fuel offset : Nat)
    (h : group_cell_exists H 1 Source.GROUP_INPUT ∨ group_cell_exists H 1 Source.GROUP_OUTPUT) :
    ckb_validate_type_id H fuel offset = some H.CKB_USER_ERROR := by
  unfold group_cell_exists at h
  simp only [ckb_validate_type_id, has_type_id_cell_input, has_type_id_cell_output]
  rcases h with h | h
  · simp [h]
  · simp [h]

theorem C3_second_cell_is_user_error_witness :
    ckb_validate_type_id scenario_C 0 7 = some scenario_C.CKB_USER_ERROR :=
  C3_second_cell_is_user_error scenario_C 0 7 (Or.inl (by decide))

/-- C4: when a group input exists at position 0 and no group cell exists at
position 1 on either side, `ckb_validate_type_id` returns success for every
offset, whatever the script, its args and the outputs are. -/
theorem C4_continuation_succeeds (H : Host) (fuel offset : Nat)
    (h0 : group_cell_exists H 0 Source.GROUP_INPUT)
    (h1 : ¬ group_cell_exists H 1 Source.GROUP_INPUT)
    (h2 : ¬ group_cell_exists H 1 Source.GROUP_OUTPUT) :
    ckb_validate_type_id H fuel offset = some H.CKB_SUCCESS := by
  unfold group_cell_exists at h0 h1 h2
  simp [ckb_validate_type_id, has_type_id_cell_input, has_type_id_cell_output, h0, h1, h2]

theorem C4_continuation_succeeds_witness :
    ckb_validate_type_id scenario_D 0 (2 ^ 64 - 1) = some scenario_D.CKB_SUCCESS :=
  C4_continuation_succeeds scenario_D 0 (2 ^ 64 - 1) (by decide) (by decide) (by decide)

/-! ## The extractor -/

theorem read_bytes_length (mem : Nat → Nat) (start n : Nat) :
    (read_bytes mem start n).length = n := by
  simp [read_bytes]

theorem read_bytes_drop_take (mem : Nat → Nat) (p n offset m : Nat) (h : offset + m ≤ n) :
    ((read_bytes mem p n).drop offset).take m = read_bytes mem (p + offset) m := by
  apply List.ext_getElem
  · simp [read_bytes]; omega
  · intro k h1 h2
    simp [read_bytes, List.getElem_take, List.getElem_drop, Nat.add_assoc]

/-- The extractor on a script that loads and verifies, for an offset within the
args: success, with the 32 bytes of the args from that offset on. -/
theorem load_type_id_in_range (H : Host) (offset : Nat)
    (hret : (H.load_script 32768).ret = H.CKB_SUCCESS)
    (hlen : (H.load_script 32768).len ≤ 32768)
    (hver : H.Script_verify (H.load_script 32768).mem (H.load_script 32768).len = H.MOL_OK)
    (hoff : offset + 32 ≤ (current_script_args H).length) :
    _ckb_load_type_id H offset =
      (H.CKB_SUCCESS, some (((current_script_args H).drop offset).take 32)) := by
  simp only [current_script_args, read_bytes_length] at hoff
  have hmod : (offset + 32) % 2 ^ 64 ≤ offset + 32 := Nat.mod_le _ _
  have hle : ¬ (offset + 32) % 2 ^ 64 >
      (H.Script_args_raw_bytes (H.load_script 32768).mem (H.load_script 32768).len).2 := by
    omega
  have hl : ¬ (H.load_script 32768).len > 32768 := by omega
  simp only [_ckb_load_type_id, current_script_args, hret, hver, hle, hl, ne_eq, not_true_eq_false,
    if_false, read_bytes_drop_take _ _ _ _ _ hoff]

/-- C9: when the host supplies the current script with a length of at most 32768,
the script verifies and `offset + 32` is at most the length of the args,
`_ckb_load_type_id` returns success and `type_id` holds the 32 bytes
`args[offset]`, ..., `args[offset + 31]`. -/
theorem C9_extracts_args_slice (H : Host) (offset : Nat)
    (hret : (H.load_script 32768).ret = H.CKB_SUCCESS)
    (hlen : (H.load_script 32768).len ≤ 32768)
    (hver : H.Script_verify (H.load_script 32768).mem (H.load_script 32768).len = H.MOL_OK)
    (hoff : offset + 32 ≤ (current_script_args H).length) :
    _ckb_load_type_id H offset =
      (H.CKB_SUCCESS, some (((current_script_args H).drop offset).take 32)) :=
  load_type_id_in_range H offset hret hlen hver hoff

theorem C9_extracts_args_slice_witness :
    _ckb_load_type_id wrap_host 0 = (wrap_host.CKB_SUCCESS, some (List.replicate 32 9)) :=
  C9_extracts_args_slice wrap_host 0 (by decide) (by decide) (by decide) (by decide)

/-- C10: when the host's script load returns non-success, or reports a length above
32768, or the loaded bytes do not verify as a `Script`, `_ckb_load_type_id`
returns `CKB_USER_ERROR` and writes nothing to `type_id`, whatever the offset
and whatever the accessor of the args would return. -/
theorem C10_load_or_schema_failure (H : Host) (offset : Nat) (args : (Nat → Nat) → Nat → Nat × Nat)
    (h : (H.load_script 32768).ret ≠ H.CKB_SUCCESS ∨ (H.load_script 32768).len > 32768 ∨
      H.Script_verify (H.load_script 32768).mem (H.load_script 32768).len ≠ H.MOL_OK) :
    _ckb_load_type_id { H with Script_args_raw_bytes := args } offset =
      (H.CKB_USER_ERROR, none) := by
  simp only [_ckb_load_type_id]
  rcases h with h | h | h
  · simp [h]
  · simp [h]
  · simp [h]

theorem C10_load_or_schema_failure_witness :
    _ckb_load_type_id { oversized_script_host with Script_args_raw_bytes := fun _ _ => (0, 64) } 0 =
      (oversized_script_host.CKB_USER_ERROR, none) :=
  C10_load_or_schema_failure oversized_script_host 0 (fun _ _ => (0, 64))
    (Or.inr (Or.inl (by decide)))

/-- The bound check of the extractor does what the specification says as long as
`offset + 32` does not wrap. -/
theorem load_type_id_out_of_range (H : Host) (offset : Nat) (hw : offset + 32 < 2 ^ 64)
    (hoff : offset + 32 > (current_script_args H).length) :
    _ckb_load_type_id H offset = (H.CKB_USER_ERROR, none) := by
  simp only [current_script_args, read_bytes_length] at hoff
  have hgt : (offset + 32) % 2 ^ 64 >
      (H.Script_args_raw_bytes (H.load_script 32768).mem (H.load_script 32768).len).2 := by
    rw [Nat.mod_eq_of_lt hw]; exact hoff
  simp only [_ckb_load_type_id]
  split_ifs <;> rfl

/-- C7: at the offset `2 ^ 64 - 32`, with a well-formed script of 32 bytes of args,
`offset + 32` exceeds the length of the args and yet `_ckb_load_type_id`
returns success, having copied the 32 bytes that precede the args in the
script (the end of the code hash, the hash type and the length of the args). -/
theorem C7_offset_wraps :
    (wrap_host.load_script 32768).ret = wrap_host.CKB_SUCCESS ∧
      (wrap_host.load_script 32768).len ≤ 32768 ∧
      wrap_host.Script_verify (wrap_host.load_script 32768).mem
        (wrap_host.load_script 32768).len = wrap_host.MOL_OK ∧
      (current_script_args wrap_host).length = 32 ∧
      2 ^ 64 - 32 + 32 > (current_script_args wrap_host).length ∧
      _ckb_load_type_id wrap_host (2 ^ 64 - 32) =
        (wrap_host.CKB_SUCCESS, some (List.replicate 27 170 ++ [1, 32, 0, 0, 0])) := by
  decide

/-! ## The prober -/

/-- C8 as stated fails: a fetch that fails with the code 4, neither success nor
range exhaustion, is reported as an absent cell, and the validator, whose
three probes all fail that way, goes down the creation path and returns
another value than 4. -/
theorem C8_other_failure_reported_absent :
    probe_failure_host.load_cell 1 Source.GROUP_INPUT ≠ probe_failure_host.CKB_SUCCESS ∧
      probe_failure_host.load_cell 1 Source.GROUP_INPUT ≠
        probe_failure_host.CKB_INDEX_OUT_OF_BOUND ∧
      _ckb_has_type_id_cell probe_failure_host 1 1 = 0 ∧
      ∀ fuel, ckb_validate_type_id probe_failure_host fuel 0 ≠ some 4 := by
  refine ⟨by decide, by decide, by decide, ?_⟩
  intro fuel
  rw [validate_creation_path _ _ _ (by decide), if_pos (by decide)]
  decide

/-- C8, amended: for every position and side, when the host's fetch fails, with
range exhaustion or with any other outcome, `_ckb_has_type_id_cell` returns 0;
no failure of the fetch reaches the caller. -/
theorem C8_every_failure_is_absent (H : Host) (index : Nat) (is_input : Int)
    (h : H.load_cell index (if is_input = 1 then Source.GROUP_INPUT else Source.GROUP_OUTPUT) ≠
      H.CKB_SUCCESS) :
    _ckb_has_type_id_cell H index is_input = 0 := by
  simp [_ckb_has_type_id_cell, h]

theorem C8_every_failure_is_absent_witness : _ckb_has_type_id_cell probe_failure_host 0 0 = 0 :=
  C8_every_failure_is_absent probe_failure_host 0 0 (by decide)

/-! ## The locator -/

theorem locate_loop_step (H : Host) (cur : Nat → Nat) (fuel i : Nat) (hi : i + 1 < 2 ^ 64)
    (h : scan_passes H cur i) :
    locate_loop H cur (fuel + 1) i = locate_loop H cur fuel (i + 1) := by
  obtain ⟨h1, h2, h3⟩ := h
  rw [locate_loop]
  simp only [h1, h2, h3, ne_eq, not_true_eq_false, if_false, Nat.mod_eq_of_lt hi]

/-- Over positions the scan passes, the loop moves on, one unit of fuel each. -/
theorem locate_loop_skip (H : Host) (cur : Nat → Nat) (n : Nat) (hn : n < 2 ^ 64)
    (hpass : ∀ j, j < n → scan_passes H cur j) (fuel : Nat) :
    ∀ d i, i + d = n → locate_loop H cur (fuel + d) i = locate_loop H cur fuel n := by
  intro d
  induction d with
  | zero => intro i hi; simp at hi; subst hi; rfl
  | succ d ih =>
    intro i hi
    have hstep := locate_loop_step H cur (fuel + d) i (by omega) (hpass i (by omega))
    rw [show fuel + (d + 1) = fuel + d + 1 by omega, hstep]
    exact ih (i + 1) (by omega)

/-- The loop ends at the first position where the fetch fails, with the host's
return value and without a store through `index`. -/
theorem locate_loop_fails_at (H : Host) (cur : Nat → Nat) (n : Nat) (hn : n < 2 ^ 64)
    (hpass : ∀ j, j < n → scan_passes H cur j)
    (hend : (H.load_cell_by_field 32 n Source.OUTPUT CellField.TYPE_HASH).ret ≠ H.CKB_SUCCESS)
    (fuel : Nat) (hfuel : n < fuel) :
    locate_loop H cur fuel 0 =
      some ((H.load_cell_by_field 32 n Source.OUTPUT CellField.TYPE_HASH).ret, none) := by
  obtain ⟨f, rfl⟩ : ∃ f, fuel = (f + 1) + n := ⟨fuel - n - 1, by omega⟩
  rw [locate_loop_skip H cur n hn hpass (f + 1) n 0 (by omega), locate_loop]
  simp [hend]

/-- The loop ends at the first position whose 32 bytes equal the current script
hash, once every earlier position was passed. -/
theorem locate_loop_finds_at (H : Host) (cur : Nat → Nat) (n : Nat) (hn : n < 2 ^ 64)
    (hpass : ∀ j, j < n → scan_passes H cur j)
    (hhit : output_type_hash_is H n (read_bytes cur 0 32))
    (fuel : Nat) (hfuel : n < fuel) :
    locate_loop H cur fuel 0 = some (H.CKB_SUCCESS, some n) := by
  obtain ⟨f, rfl⟩ : ∃ f, fuel = (f + 1) + n := ⟨fuel - n - 1, by omega⟩
  obtain ⟨h1, h2, h3⟩ := hhit
  rw [locate_loop_skip H cur n hn hpass (f + 1) n 0 (by omega), locate_loop]
  simp [h1, h2, h3]

/-- C5: with a first output that has no type script and a second output that
carries the current script, the script hash loads and position 1 is the least
position whose type hash equals it, yet the locator returns the host's
failure 2 of position 0 and stores no index. -/
theorem C5_locator_stops_at_untyped_output :
    (untyped_first_output_host.load_script_hash 32).ret = untyped_first_output_host.CKB_SUCCESS ∧
      (untyped_first_output_host.load_script_hash 32).len = 32 ∧
      output_type_hash_is untyped_first_output_host 1
        (current_script_hash untyped_first_output_host) ∧
      ¬ output_type_hash_is untyped_first_output_host 0
        (current_script_hash untyped_first_output_host) ∧
      ∀ fuel, _ckb_locate_first_type_id_output_index untyped_first_output_host (fuel + 1) =
        some (2, none) := by
  refine ⟨by decide, by decide, by decide, by decide, ?_⟩
  intro fuel
  have hend : (untyped_first_output_host.load_cell_by_field 32 0 Source.OUTPUT
      CellField.TYPE_HASH).ret ≠ untyped_first_output_host.CKB_SUCCESS := by decide
  have h := locate_loop_fails_at untyped_first_output_host
    (untyped_first_output_host.load_script_hash 32).mem 0 (by norm_num)
    (fun j hj => absurd hj (Nat.not_lt_zero j)) hend (fuel + 1) (by omega)
  simp only [_ckb_locate_first_type_id_output_index]
  rw [if_neg (by decide), if_neg (by decide), h]
  rfl

/-- When the scan passes every position below `n` and the fetch fails at `n`, the
locator returns the host's value for position `n`. -/
theorem locate_returns_host_failure (H : Host) (fuel n : Nat) (hn : n < 2 ^ 64)
    (hret : (H.load_script_hash 32).ret = H.CKB_SUCCESS) (hlen : (H.load_script_hash 32).len = 32)
    (hpass : ∀ j, j < n → scan_passes H (H.load_script_hash 32).mem j)
    (hend : (H.load_cell_by_field 32 n Source.OUTPUT CellField.TYPE_HASH).ret ≠ H.CKB_SUCCESS)
    (hfuel : n < fuel) :
    _ckb_locate_first_type_id_output_index H fuel =
      some ((H.load_cell_by_field 32 n Source.OUTPUT CellField.TYPE_HASH).ret, none) := by
  simp only [_ckb_locate_first_type_id_output_index, hret, hlen, ne_eq, not_true_eq_false, if_false]
  exact locate_loop_fails_at H _ n hn hpass hend fuel hfuel

/-- When the scan passes every position below `n` and the type hash at `n` is the
current script hash, the locator succeeds with the index `n`. -/
theorem locate_returns_first_match (H : Host) (fuel n : Nat) (hn : n < 2 ^ 64)
    (hret : (H.load_script_hash 32).ret = H.CKB_SUCCESS) (hlen : (H.load_script_hash 32).len = 32)
    (hpass : ∀ j, j < n → scan_passes H (H.load_script_hash 32).mem j)
    (hhit : output_type_hash_is H n (current_script_hash H))
    (hfuel : n < fuel) :
    _ckb_locate_first_type_id_output_index H fuel = some (H.CKB_SUCCESS, some n) := by
  simp only [_ckb_locate_first_type_id_output_index, hret, hlen, ne_eq, not_true_eq_false, if_false]
  exact locate_loop_finds_at H _ n hn hpass hhit fuel hfuel

/-- C6 as stated fails: on a creation path with no matching output, where the
host reports range exhaustion at position 1, empty args make the validator
return `CKB_USER_ERROR` before any scan (even without fuel), and that value
is not the host's value for range exhaustion. -/
theorem C6_no_match_but_extractor_error :
    creation_path no_match_short_args_host ∧
      (∀ j, ¬ output_type_hash_is no_match_short_args_host j
        (current_script_hash no_match_short_args_host)) ∧
      (no_match_short_args_host.load_cell_by_field 32 1 Source.OUTPUT CellField.TYPE_HASH).ret =
        no_match_short_args_host.CKB_INDEX_OUT_OF_BOUND ∧
      (∀ fuel, ckb_validate_type_id no_match_short_args_host fuel 0 =
        some no_match_short_args_host.CKB_USER_ERROR) ∧
      no_match_short_args_host.CKB_USER_ERROR ≠ no_match_short_args_host.CKB_INDEX_OUT_OF_BOUND := by
  have hc : creation_path no_match_short_args_host := by decide
  refine ⟨hc, ?_, by decide, ?_, by decide⟩
  · intro j
    rcases j with _ | j
    · decide
    · simp [output_type_hash_is, no_match_short_args_host, sample_host]
  · intro fuel
    rw [validate_creation_path _ _ _ hc, if_pos (by decide)]
    decide

/-- C6, amended: on the creation path, when the extractor succeeds, the script
hash loads with 32 bytes, the scan passes every position below `n` (a 32-byte
type hash other than the current script hash) and the host's fetch fails at
position `n`, the scan ends there and `ckb_validate_type_id` returns the
host's value for that fetch unchanged. -/
theorem C6_no_match_returns_host_value (H : Host) (fuel offset n : Nat) (hn : n < 2 ^ 64)
    (hc : creation_path H)
    (hext : (_ckb_load_type_id H offset).1 = H.CKB_SUCCESS)
    (hret : (H.load_script_hash 32).ret = H.CKB_SUCCESS) (hlen : (H.load_script_hash 32).len = 32)
    (hpass : ∀ j, j < n → scan_passes H (H.load_script_hash 32).mem j)
    (hend : (H.load_cell_by_field 32 n Source.OUTPUT CellField.TYPE_HASH).ret ≠ H.CKB_SUCCESS)
    (hfuel : n < fuel) :
    _ckb_locate_first_type_id_output_index H fuel =
        some ((H.load_cell_by_field 32 n Source.OUTPUT CellField.TYPE_HASH).ret, none) ∧
      ckb_validate_type_id H fuel offset =
        some (H.load_cell_by_field 32 n Source.OUTPUT CellField.TYPE_HASH).ret := by
  have hloc := locate_returns_host_failure H fuel n hn hret hlen hpass hend hfuel
  refine ⟨hloc, ?_⟩
  rw [validate_creation_path _ _ _ hc, hloc, if_neg (by simp [hext])]
  simp only []
  rw [if_pos hend]

theorem C6_no_match_returns_host_value_witness :
    _ckb_locate_first_type_id_output_index no_match_host 3 = some (1, none) ∧
      ckb_validate_type_id no_match_host 3 0 = some 1 :=
  C6_no_match_returns_host_value no_match_host 3 0 2 (by norm_num) (by decide) (by decide)
    (by decide) (by decide) (by decide) (by decide) (by decide)

/-- On the creation path the validator succeeds when the extractor succeeds with
the derived identifier, the scan passes every position below the first match
`n`, and the first input loads. -/
theorem validate_creation_succeeds (H : Host) (fuel offset n : Nat) (hn : n < 2 ^ 64)
    (hc : creation_path H)
    (hext : _ckb_load_type_id H offset = (H.CKB_SUCCESS, some (derived_type_id H n)))
    (hret : (H.load_script_hash 32).ret = H.CKB_SUCCESS) (hlen : (H.load_script_hash 32).len = 32)
    (hpass : ∀ j, j < n → scan_passes H (H.load_script_hash 32).mem j)
    (hhit : output_type_hash_is H n (current_script_hash H))
    (hin : (ckb_checked_load_input H 128 0 Source.INPUT).ret = H.CKB_SUCCESS)
    (hfuel : n < fuel) :
    ckb_validate_type_id H fuel offset = some H.CKB_SUCCESS := by
  have hloc := locate_returns_first_match H fuel n hn hret hlen hpass hhit hfuel
  rw [validate_creation_path _ _ _ hc, hloc, hext]
  simp [hin]

/-- C2 as stated fails: a well-formed current script of 40000 bytes whose args
hold, at offset 0, the hash of the first input's bytes followed by the
little-endian 0, position 0 being the first output with the current script
hash; the extractor refuses a script above 32768 bytes and the validator
returns `CKB_USER_ERROR`, not success. -/
theorem C2_oversized_script_is_refused :
    creation_path oversized_args_host ∧
      oversized_args_host.Script_verify (oversized_args_host.load_script 32768).mem
        (oversized_args_host.load_script 32768).len = oversized_args_host.MOL_OK ∧
      output_type_hash_is oversized_args_host 0 (current_script_hash oversized_args_host) ∧
      (ckb_checked_load_input oversized_args_host 128 0 Source.INPUT).ret =
        oversized_args_host.CKB_SUCCESS ∧
      ((current_script_args oversized_args_host).drop 0).take 32 =
        oversized_args_host.blake2b_digest
          (first_input_bytes oversized_args_host ++ le_bytes 0 8) ∧
      (∀ fuel, ckb_validate_type_id oversized_args_host fuel 0 =
        some oversized_args_host.CKB_USER_ERROR) ∧
      oversized_args_host.CKB_USER_ERROR ≠ oversized_args_host.CKB_SUCCESS := by
  have hc : creation_path oversized_args_host := by decide
  refine ⟨hc, by decide, by decide, by decide, ?_, ?_, by decide⟩
  · rw [current_script_args, read_bytes_drop_take _ _ _ _ _ (by decide)]
    decide
  · intro fuel
    rw [validate_creation_path _ _ _ hc, if_pos (by decide)]
    decide

/-- C2, amended: on the creation path, when the current script loads with at most
32768 bytes and verifies, the 32 bytes of its args at `offset` equal the hash
of the first input's bytes (loaded within 128 bytes) followed by the 8
little-endian bytes of `n`, the script hash loads, output `n` is the first to
carry the current script hash and the host's fetch at every earlier position
succeeds with a 32-byte hash, `ckb_validate_type_id` returns success once the
scan has fuel for `n + 1` positions. -/
theorem C2_creation_succeeds (H : Host) (fuel offset n : Nat) (hn : n < 2 ^ 64)
    (hc : creation_path H)
    (hret : (H.load_script 32768).ret = H.CKB_SUCCESS)
    (hlen : (H.load_script 32768).len ≤ 32768)
    (hver : H.Script_verify (H.load_script 32768).mem (H.load_script 32768).len = H.MOL_OK)
    (hoff : offset + 32 ≤ (current_script_args H).length)
    (hid : ((current_script_args H).drop offset).take 32 =
      H.blake2b_digest (first_input_bytes H ++ le_bytes n 8))
    (hhret : (H.load_script_hash 32).ret = H.CKB_SUCCESS)
    (hhlen : (H.load_script_hash 32).len = 32)
    (hhit : output_type_hash_is H n (current_script_hash H))
    (hfirst : ∀ j, j < n → ¬ output_type_hash_is H j (current_script_hash H))
    (hfetch : ∀ j, j < n →
      (H.load_cell_by_field 32 j Source.OUTPUT CellField.TYPE_HASH).ret = H.CKB_SUCCESS ∧
      (H.load_cell_by_field 32 j Source.OUTPUT CellField.TYPE_HASH).len = 32)
    (hin : (ckb_checked_load_input H 128 0 Source.INPUT).ret = H.CKB_SUCCESS)
    (hfuel : n < fuel) :
    ckb_validate_type_id H fuel offset = some H.CKB_SUCCESS := by
  have hpass : ∀ j, j < n → scan_passes H (H.load_script_hash 32).mem j := by
    intro j hj
    obtain ⟨h1, h2⟩ := hfetch j hj
    exact ⟨h1, h2, fun h => hfirst j hj ⟨h1, h2, h⟩⟩
  have hext := load_type_id_in_range H offset hret hlen hver hoff
  rw [hid] at hext
  exact validate_creation_succeeds H fuel offset n hn hc hext hhret hhlen hpass hhit hin hfuel

theorem C2_creation_succeeds_witness :
    ckb_validate_type_id second_output_host 2 0 = some second_output_host.CKB_SUCCESS :=
  C2_creation_succeeds second_output_host 2 0 1 (by norm_num) (by decide) (by decide) (by decide)
    (by decide) (by decide) (by decide) (by decide) (by decide) (by decide) (by decide)
    (by decide) (by decide) (by decide)

/-! ## The prober, the singleton guard and the located index -/

/-- C16: `_ckb_has_type_id_cell(index, is_input)` fetches the group-input view when
`is_input` is 1 and the group-output view for every other value; it returns 1
when that fetch succeeds and 0 when it does not, in particular when the host
reports range exhaustion; the result is 0 or 1. -/
theorem C16_probe_reports_presence (H : Host) (index : Nat) (is_input : Int) :
    (is_input = 1 → _ckb_has_type_id_cell H index is_input =
        if H.load_cell index Source.GROUP_INPUT = H.CKB_SUCCESS then 1 else 0) ∧
      (is_input ≠ 1 → _ckb_has_type_id_cell H index is_input =
        if H.load_cell index Source.GROUP_OUTPUT = H.CKB_SUCCESS then 1 else 0) ∧
      (H.load_cell index (if is_input = 1 then Source.GROUP_INPUT else Source.GROUP_OUTPUT) =
        H.CKB_SUCCESS → _ckb_has_type_id_cell H index is_input = 1) ∧
      (H.load_cell index (if is_input = 1 then Source.GROUP_INPUT else Source.GROUP_OUTPUT) =
        H.CKB_INDEX_OUT_OF_BOUND → H.CKB_INDEX_OUT_OF_BOUND ≠ H.CKB_SUCCESS →
        _ckb_has_type_id_cell H index is_input = 0) ∧
      (_ckb_has_type_id_cell H index is_input = 0 ∨ _ckb_has_type_id_cell H index is_input = 1) := by
  refine ⟨?_, ?_, ?_, ?_, ?_⟩
  · intro h; simp [_ckb_has_type_id_cell, h]
  · intro h; simp [_ckb_has_type_id_cell, h]
  · intro h; simp [_ckb_has_type_id_cell, h]
  · intro h hne; simp [_ckb_has_type_id_cell, h, hne]
  · simp only [_ckb_has_type_id_cell]
    by_cases h : H.load_cell index
        (if is_input = 1 then Source.GROUP_INPUT else Source.GROUP_OUTPUT) = H.CKB_SUCCESS
    · right; simp [h]
    · left; simp [h]

/-- With a group cell at position 1 on either side the validator returns
`CKB_USER_ERROR`. -/
theorem validate_of_second_cell (H : Host) (fuel offset : Nat)
    (h : group_cell_exists H 1 Source.GROUP_INPUT ∨ group_cell_exists H 1 Source.GROUP_OUTPUT) :
    ckb_validate_type_id H fuel offset = some H.CKB_USER_ERROR := by
  unfold group_cell_exists at h
  simp only [ckb_validate_type_id, has_type_id_cell_input, has_type_id_cell_output]
  rcases h with h | h
  · simp [h]
  · simp [h]

/-- In a dense group view a cell at a position above 0 implies a cell at position 1. -/
theorem dense_groups_down (H : Host) (hd : dense_groups H) (k : Nat) :
    (group_cell_exists H (k + 1) Source.GROUP_INPUT → group_cell_exists H 1 Source.GROUP_INPUT) ∧
      (group_cell_exists H (k + 1) Source.GROUP_OUTPUT →
        group_cell_exists H 1 Source.GROUP_OUTPUT) := by
  induction k with
  | zero => exact ⟨id, id⟩
  | succ k ih => exact ⟨fun h => ih.1 ((hd (k + 1)).1 h), fun h => ih.2 ((hd (k + 1)).2 h)⟩

theorem sample_host_dense (gi go : Nat) (args : List Nat) (outputs : List (Option (List Nat))) :
    dense_groups (sample_host gi go args outputs) := by
  intro k
  simp only [group_cell_exists, sample_host]
  constructor <;> intro h <;> split_ifs at h ⊢ <;> first | rfl | omega

/-- C12: on a host with dense group views and an error value other than success,
when `ckb_validate_type_id` returns success every group input and every
group output sits at position 0: at most one cell on each side. -/
theorem C12_success_means_singleton (H : Host) (fuel offset : Nat)
    (hue : H.CKB_USER_ERROR ≠ H.CKB_SUCCESS) (hd : dense_groups H)
    (hs : ckb_validate_type_id H fuel offset = some H.CKB_SUCCESS) :
    ∀ k, (group_cell_exists H k Source.GROUP_INPUT → k = 0) ∧
      (group_cell_exists H k Source.GROUP_OUTPUT → k = 0) := by
  have h1 : ¬ (group_cell_exists H 1 Source.GROUP_INPUT ∨
      group_cell_exists H 1 Source.GROUP_OUTPUT) := by
    intro h
    rw [validate_of_second_cell H fuel offset h] at hs
    exact hue (Option.some.inj hs)
  intro k
  cases k with
  | zero => exact ⟨fun _ => rfl, fun _ => rfl⟩
  | succ k =>
    exact ⟨fun h => absurd (Or.inl ((dense_groups_down H hd k).1 h)) h1,
      fun h => absurd (Or.inr ((dense_groups_down H hd k).2 h)) h1⟩

theorem C12_success_means_singleton_witness :
    ckb_validate_type_id scenario_D 0 0 = some scenario_D.CKB_SUCCESS ∧
      ∀ k, (group_cell_exists scenario_D k Source.GROUP_INPUT → k = 0) ∧
        (group_cell_exists scenario_D k Source.GROUP_OUTPUT → k = 0) :=
  ⟨by decide, C12_success_means_singleton scenario_D 0 0 (by decide)
    (sample_host_dense 1 1 [222, 173] [none]) (by decide)⟩

/-- A success of the loop that stores an index comes from the match branch: once
every position below the start was passed, the stored position carries the
current script hash and every position below it was passed. -/
theorem locate_loop_success (H : Host) (cur : Nat → Nat) (i : Nat) :
    ∀ fuel s, (∀ j, j < s → scan_passes H cur j) →
      locate_loop H cur fuel s = some (H.CKB_SUCCESS, some i) →
      output_type_hash_is H i (read_bytes cur 0 32) ∧ ∀ j, j < i → scan_passes H cur j := by
  intro fuel
  induction fuel with
  | zero => intro s _ h; simp [locate_loop] at h
  | succ fuel ih =>
    intro s hs h
    rw [locate_loop] at h
    by_cases h1 : (H.load_cell_by_field 32 s Source.OUTPUT CellField.TYPE_HASH).ret =
        H.CKB_SUCCESS
    · by_cases h2 : (H.load_cell_by_field 32 s Source.OUTPUT CellField.TYPE_HASH).len = 32
      · by_cases h3 : read_bytes (H.load_cell_by_field 32 s Source.OUTPUT
            CellField.TYPE_HASH).mem 0 32 = read_bytes cur 0 32
        · simp only [h1, h2, h3, ne_eq, not_true_eq_false, if_false, if_true] at h
          have hi : s = i := by simpa using h
          subst hi
          exact ⟨⟨h1, h2, h3⟩, hs⟩
        · simp only [h1, h2, h3, ne_eq, not_true_eq_false, if_false] at h
          have hpass : scan_passes H cur s := ⟨h1, h2, h3⟩
          by_cases hw : s + 1 < 2 ^ 64
          · rw [Nat.mod_eq_of_lt hw] at h
            refine ih (s + 1) ?_ h
            intro j hj
            rcases Nat.lt_succ_iff_lt_or_eq.mp hj with hlt | heq
            · exact hs j hlt
            · rw [heq]; exact hpass
          · exact ih _ (fun j hj => hs j (lt_of_lt_of_le hj (by
              have := Nat.mod_lt (s + 1) (show 0 < 2 ^ 64 by norm_num)
              omega))) h
      · simp [h1, h2] at h
    · simp [h1] at h

/-- C14: when `_ckb_locate_first_type_id_output_index` returns success with the
index `i` stored, the type hash of output `i` is the current script hash, and
at every position below `i` the fetch succeeded with 32 bytes other than the
current script hash. -/
theorem C14_located_index_is_first_match (H : Host) (fuel i : Nat)
    (h : _ckb_locate_first_type_id_output_index H fuel = some (H.CKB_SUCCESS, some i)) :
    output_type_hash_is H i (current_script_hash H) ∧
      ∀ j, j < i → scan_passes H (H.load_script_hash 32).mem j := by
  unfold _ckb_locate_first_type_id_output_index at h
  by_cases h1 : (H.load_script_hash 32).ret = H.CKB_SUCCESS
  · by_cases h2 : (H.load_script_hash 32).len = 32
    · simp only [h1, h2, ne_eq, not_true_eq_false, if_false] at h
      exact locate_loop_success H _ i fuel 0 (fun j hj => absurd hj (Nat.not_lt_zero j)) h
    · simp [h1, h2] at h
  · simp [h1] at h

theorem C14_located_index_is_first_match_witness :
    output_type_hash_is second_output_host 1 (current_script_hash second_output_host) ∧
      ∀ j, j < 1 → scan_passes second_output_host (second_output_host.load_script_hash 32).mem j :=
  C14_located_index_is_first_match second_output_host 2 1 (by decide)

/-! ## Termination of the scan and determinism -/

/-- More fuel does not change a result of the loop. -/
theorem locate_loop_fuel_mono (H : Host) (cur : Nat → Nat) (k : Nat) :
    ∀ fuel s r, locate_loop H cur fuel s = some r → locate_loop H cur (fuel + k) s = some r := by
  intro fuel
  induction fuel with
  | zero => intro s r h; simp [locate_loop] at h
  | succ fuel ih =>
    intro s r h
    rw [show fuel + 1 + k = (fuel + k) + 1 by omega, locate_loop]
    rw [locate_loop] at h
    split_ifs at h ⊢ with h1 h2 h3
    · exact h
    · exact h
    · exact h
    · exact ih _ _ h

theorem locate_fuel_mono (H : Host) (fuel k : Nat) (r : Int × Option Nat)
    (h : _ckb_locate_first_type_id_output_index H fuel = some r) :
    _ckb_locate_first_type_id_output_index H (fuel + k) = some r := by
  simp only [_ckb_locate_first_type_id_output_index] at h ⊢
  split_ifs at h ⊢ with h1 h2
  · exact h
  · exact h
  · exact locate_loop_fuel_mono H _ k fuel 0 r h

/-- From a position `s` that is `d` positions before a failing fetch, the loop
ends within `d + 1` fetches, in one of its three exits. -/
theorem locate_loop_ends (H : Host) (cur : Nat → Nat) (n : Nat) (hn : n < 2 ^ 64)
    (hend : (H.load_cell_by_field 32 n Source.OUTPUT CellField.TYPE_HASH).ret ≠ H.CKB_SUCCESS) :
    ∀ d s, s + d = n → ∃ r, locate_loop H cur (d + 1) s = some r ∧
      ((∃ i, i < n ∧ r = (H.CKB_SUCCESS, some i) ∧
          output_type_hash_is H i (read_bytes cur 0 32)) ∨
        (∃ j, j ≤ n ∧
          (H.load_cell_by_field 32 j Source.OUTPUT CellField.TYPE_HASH).ret ≠ H.CKB_SUCCESS ∧
          r = ((H.load_cell_by_field 32 j Source.OUTPUT CellField.TYPE_HASH).ret, none)) ∨
        (∃ j, j < n ∧
          (H.load_cell_by_field 32 j Source.OUTPUT CellField.TYPE_HASH).ret = H.CKB_SUCCESS ∧
          (H.load_cell_by_field 32 j Source.OUTPUT CellField.TYPE_HASH).len ≠ 32 ∧
          r = (H.CKB_USER_ERROR, none))) := by
  intro d
  induction d with
  | zero =>
    intro s hs
    simp only [Nat.add_zero] at hs
    subst hs
    refine ⟨_, ?_, Or.inr (Or.inl ⟨s, le_refl s, hend, rfl⟩)⟩
    rw [locate_loop]
    simp [hend]
  | succ d ih =>
    intro s hs
    rw [locate_loop]
    by_cases h1 : (H.load_cell_by_field 32 s Source.OUTPUT CellField.TYPE_HASH).ret =
        H.CKB_SUCCESS
    · by_cases h2 : (H.load_cell_by_field 32 s Source.OUTPUT CellField.TYPE_HASH).len = 32
      · by_cases h3 : read_bytes (H.load_cell_by_field 32 s Source.OUTPUT
            CellField.TYPE_HASH).mem 0 32 = read_bytes cur 0 32
        · refine ⟨_, ?_, Or.inl ⟨s, by omega, rfl, ⟨h1, h2, h3⟩⟩⟩
          simp only [h1, h2, h3, ne_eq, not_true_eq_false, if_false, if_true]
        · simp only [h1, h2, h3, ne_eq, not_true_eq_false, if_false,
            Nat.mod_eq_of_lt (show s + 1 < 2 ^ 64 by omega)]
          exact ih (s + 1) (by omega)
      · refine ⟨_, ?_, Or.inr (Or.inr ⟨s, by omega, h1, h2, rfl⟩)⟩
        simp only [h1, h2, ne_eq, not_true_eq_false, not_false_eq_true, if_false, if_true]
    · refine ⟨_, ?_, Or.inr (Or.inl ⟨s, by omega, h1, rfl⟩)⟩
      simp only [h1, ne_eq, not_false_eq_true, if_true]

/-- C15 as stated fails: the outputs end at position 1, and the scan ends at its
first fetch with `CKB_USER_ERROR`, because that fetch succeeds with a length
of 20: neither a match nor a failure of the host, whose fetches never return
that value. -/
theorem C15_scan_ends_on_bad_length :
    (∀ j, 1 ≤ j → (bad_length_host.load_cell_by_field 32 j Source.OUTPUT
        CellField.TYPE_HASH).ret ≠ bad_length_host.CKB_SUCCESS) ∧
      (bad_length_host.load_cell_by_field 32 0 Source.OUTPUT CellField.TYPE_HASH).ret =
        bad_length_host.CKB_SUCCESS ∧
      (∀ j, (bad_length_host.load_cell_by_field 32 j Source.OUTPUT CellField.TYPE_HASH).ret ≠
        bad_length_host.CKB_USER_ERROR) ∧
      ∀ cur fuel, locate_loop bad_length_host cur (fuel + 1) 0 =
        some (bad_length_host.CKB_USER_ERROR, none) := by
  refine ⟨?_, by decide, ?_, ?_⟩
  · intro j hj
    have : j ≠ 0 := by omega
    simp [bad_length_host, sample_host, this]
  · intro j
    by_cases h : j = 0 <;> simp [bad_length_host, sample_host, h]
  · intro cur fuel
    rw [locate_loop]
    simp [bad_length_host, sample_host]

/-- C15, amended: when the type-hash fetch fails at every position from `n` on
(`n` a position, below `2 ^ 64`), the scan loop ends within `n + 1` fetches:
with a match at a position below `n`, or with the host's failure at a
position up to `n`, or with `CKB_USER_ERROR` at a position below `n` whose
fetch succeeded with a length other than 32. -/
theorem C15_scan_terminates (H : Host) (cur : Nat → Nat) (n : Nat) (hn : n < 2 ^ 64)
    (hfin : ∀ j, n ≤ j →
      (H.load_cell_by_field 32 j Source.OUTPUT CellField.TYPE_HASH).ret ≠ H.CKB_SUCCESS) :
    ∃ r, (∀ fuel, n + 1 ≤ fuel → locate_loop H cur fuel 0 = some r) ∧
      ((∃ i, i < n ∧ r = (H.CKB_SUCCESS, some i) ∧
          output_type_hash_is H i (read_bytes cur 0 32)) ∨
        (∃ j, j ≤ n ∧
          (H.load_cell_by_field 32 j Source.OUTPUT CellField.TYPE_HASH).ret ≠ H.CKB_SUCCESS ∧
          r = ((H.load_cell_by_field 32 j Source.OUTPUT CellField.TYPE_HASH).ret, none)) ∨
        (∃ j, j < n ∧
          (H.load_cell_by_field 32 j Source.OUTPUT CellField.TYPE_HASH).ret = H.CKB_SUCCESS ∧
          (H.load_cell_by_field 32 j Source.OUTPUT CellField.TYPE_HASH).len ≠ 32 ∧
          r = (H.CKB_USER_ERROR, none))) := by
  obtain ⟨r, hr, hex⟩ := locate_loop_ends H cur n hn (hfin n (le_refl n)) n 0 (by omega)
  refine ⟨r, ?_, hex⟩
  intro fuel hfuel
  obtain ⟨k, rfl⟩ : ∃ k, fuel = n + 1 + k := ⟨fuel - (n + 1), by omega⟩
  exact locate_loop_fuel_mono H cur k (n + 1) 0 r hr

theorem C15_scan_terminates_witness :
    ∃ r, (∀ fuel, 2 + 1 ≤ fuel →
        locate_loop second_output_host (second_output_host.load_script_hash 32).mem fuel 0 =
          some r) ∧
      ((∃ i, i < 2 ∧ r = (second_output_host.CKB_SUCCESS, some i) ∧
          output_type_hash_is second_output_host i
            (read_bytes (second_output_host.load_script_hash 32).mem 0 32)) ∨
        (∃ j, j ≤ 2 ∧
          (second_output_host.load_cell_by_field 32 j Source.OUTPUT CellField.TYPE_HASH).ret ≠
            second_output_host.CKB_SUCCESS ∧
          r = ((second_output_host.load_cell_by_field 32 j Source.OUTPUT
            CellField.TYPE_HASH).ret, none)) ∨
        (∃ j, j < 2 ∧
          (second_output_host.load_cell_by_field 32 j Source.OUTPUT CellField.TYPE_HASH).ret =
            second_output_host.CKB_SUCCESS ∧
          (second_output_host.load_cell_by_field 32 j Source.OUTPUT CellField.TYPE_HASH).len ≠ 32 ∧
          r = (second_output_host.CKB_USER_ERROR, none))) :=
  C15_scan_terminates second_output_host (second_output_host.load_script_hash 32).mem 2
    (by norm_num)
    (by
      intro j hj
      obtain ⟨k, rfl⟩ : ∃ k, j = k + 2 := ⟨j - 2, by omega⟩
      simp [second_output_host, sample_host])

/-- The loop reads the host only through the type-hash fetches and the two
constants. -/
theorem locate_loop_congr (H1 H2 : Host) (cur : Nat → Nat)
    (hS : H1.CKB_SUCCESS = H2.CKB_SUCCESS) (hU : H1.CKB_USER_ERROR = H2.CKB_USER_ERROR)
    (hf : ∀ j, H1.load_cell_by_field 32 j Source.OUTPUT CellField.TYPE_HASH =
      H2.load_cell_by_field 32 j Source.OUTPUT CellField.TYPE_HASH) :
    ∀ fuel s, locate_loop H1 cur fuel s = locate_loop H2 cur fuel s := by
  intro fuel
  induction fuel with
  | zero => intro s; rfl
  | succ fuel ih =>
    intro s
    rw [locate_loop, locate_loop, hf s, hS, hU, ih]

theorem locate_congr (H1 H2 : Host) (fuel : Nat)
    (hS : H1.CKB_SUCCESS = H2.CKB_SUCCESS) (hU : H1.CKB_USER_ERROR = H2.CKB_USER_ERROR)
    (hh : H1.load_script_hash 32 = H2.load_script_hash 32)
    (hf : ∀ j, H1.load_cell_by_field 32 j Source.OUTPUT CellField.TYPE_HASH =
      H2.load_cell_by_field 32 j Source.OUTPUT CellField.TYPE_HASH) :
    _ckb_locate_first_type_id_output_index H1 fuel =
      _ckb_locate_first_type_id_output_index H2 fuel := by
  simp only [_ckb_locate_first_type_id_output_index, hh, hS, hU,
    locate_loop_congr H1 H2 _ hS hU hf]

/-- Hosts with the same answers give the same run of the validator. -/
theorem validate_congr (H1 H2 : Host) (fuel offset : Nat) (h : same_answers H1 H2) :
    ckb_validate_type_id H1 fuel offset = ckb_validate_type_id H2 fuel offset := by
  obtain ⟨hS, hU, hL, hM, hc1, hc2, hc3, hs, hh, hf, hi, hv, ha, hd⟩ := h
  have e4 : _ckb_load_type_id H1 offset = _ckb_load_type_id H2 offset := by
    simp only [_ckb_load_type_id, hs, hS, hU, hM, hv, ha]
  have e5 := locate_congr H1 H2 fuel hS hU hh hf
  have e6 : ckb_checked_load_input H1 128 0 Source.INPUT =
      ckb_checked_load_input H2 128 0 Source.INPUT := by
    simp only [ckb_checked_load_input, hi, hS, hL]
  simp only [ckb_validate_type_id, has_type_id_cell_input, has_type_id_cell_output, hc1, hc2, hc3,
    e4, e5, e6, hS, hU, blake2b_final, hd]

/-- More fuel does not change a result of the validator. -/
theorem validate_fuel_mono (H : Host) (fuel k offset : Nat) (a : Int)
    (h : ckb_validate_type_id H fuel offset = some a) :
    ckb_validate_type_id H (fuel + k) offset = some a := by
  simp only [ckb_validate_type_id] at h ⊢
  cases hl : _ckb_locate_first_type_id_output_index H fuel with
  | none =>
    rw [hl] at h
    split_ifs at h ⊢ <;> exact h
  | some l =>
    rw [locate_fuel_mono H fuel k l hl]
    rw [hl] at h
    exact h

/-- C13: two runs of `ckb_validate_type_id` over hosts that give the same
answers to every query return the same outcome: with the same fuel the runs
are equal, and whenever both end they end with the same value. -/
theorem C13_validate_deterministic (H1 H2 : Host) (offset : Nat) (h : same_answers H1 H2) :
    (∀ fuel, ckb_validate_type_id H1 fuel offset = ckb_validate_type_id H2 fuel offset) ∧
      ∀ f1 f2 a b, ckb_validate_type_id H1 f1 offset = some a →
        ckb_validate_type_id H2 f2 offset = some b → a = b := by
  refine ⟨fun fuel => validate_congr H1 H2 fuel offset h, ?_⟩
  intro f1 f2 a b ha hb
  have h1 := validate_fuel_mono H1 f1 f2 offset a ha
  have h2 := validate_fuel_mono H2 f2 f1 offset b hb
  rw [validate_congr H1 H2 (f1 + f2) offset h, Nat.add_comm f1 f2, h2] at h1
  exact (Option.some.inj h1).symm

theorem C13_validate_deterministic_witness :
    (∀ fuel, ckb_validate_type_id scenario_B fuel 0 =
        ckb_validate_type_id scenario_B_elsewhere fuel 0) ∧
      ∀ f1 f2 a b, ckb_validate_type_id scenario_B f1 0 = some a →
        ckb_validate_type_id scenario_B_elsewhere f2 0 = some b → a = b :=
  C13_validate_deterministic scenario_B scenario_B_elsewhere 0
    ⟨rfl, rfl, rfl, rfl, by decide, by decide, by decide, rfl, rfl, fun _ => rfl, rfl,
      fun _ _ => rfl, fun _ _ => rfl, fun _ => rfl⟩

/-! ## Failures of the steps and the outcome of the validator -/

/-- C11 as stated fails: both probes at position 1 fail with the code 4, neither
success nor range exhaustion, and the validator goes on and returns success. -/
theorem C11_success_after_failed_probe :
    failed_probe_host.load_cell 1 Source.GROUP_INPUT = 4 ∧
      failed_probe_host.load_cell 1 Source.GROUP_OUTPUT = 4 ∧
      (4 : Int) ≠ failed_probe_host.CKB_SUCCESS ∧
      (4 : Int) ≠ failed_probe_host.CKB_INDEX_OUT_OF_BOUND ∧
      ∀ fuel offset, ckb_validate_type_id failed_probe_host fuel offset =
        some failed_probe_host.CKB_SUCCESS := by
  refine ⟨by decide, by decide, by decide, by decide, ?_⟩
  intro fuel offset
  simp only [ckb_validate_type_id, has_type_id_cell_input, has_type_id_cell_output]
  rw [if_neg (by decide), if_neg (by decide)]

/-- C11, amended: on the creation path (the three probes report absent, a failed
fetch of a probe counting as absent), a failure of the extraction, of the
location or of the load of the first input ends the validation with the value
that step returned, and the answers a later step would read have no part in
it; a first input above 128 bytes is such a failure of the load. -/
theorem C11_failure_aborts (H : Host) (fuel offset : Nat) (hc : creation_path H) :
    ((_ckb_load_type_id H offset).1 ≠ H.CKB_SUCCESS →
        ∀ (h' : Nat → Loaded) (f' : Nat → Nat → Source → CellField → Loaded)
          (i' : Nat → Nat → Source → Loaded) (d' : List Nat → List Nat) (fuel' : Nat),
          ckb_validate_type_id (after_extraction H h' f' i' d') fuel' offset =
            some (_ckb_load_type_id H offset).1) ∧
      ((_ckb_load_type_id H offset).1 = H.CKB_SUCCESS →
        ∀ l, _ckb_locate_first_type_id_output_index H fuel = some l → l.1 ≠ H.CKB_SUCCESS →
        ∀ (i' : Nat → Nat → Source → Loaded) (d' : List Nat → List Nat),
          ckb_validate_type_id (after_location H i' d') fuel offset = some l.1) ∧
      ((_ckb_load_type_id H offset).1 = H.CKB_SUCCESS →
        ∀ l, _ckb_locate_first_type_id_output_index H fuel = some l → l.1 = H.CKB_SUCCESS →
        (ckb_checked_load_input H 128 0 Source.INPUT).ret ≠ H.CKB_SUCCESS →
        ∀ (d' : List Nat → List Nat),
          ckb_validate_type_id (after_input_load H d') fuel offset =
            some (ckb_checked_load_input H 128 0 Source.INPUT).ret) ∧
      ((H.load_input 128 0 Source.INPUT).ret = H.CKB_SUCCESS →
        (H.load_input 128 0 Source.INPUT).len > 128 →
        (ckb_checked_load_input H 128 0 Source.INPUT).ret = H.CKB_LENGTH_NOT_ENOUGH) := by
  refine ⟨?_, ?_, ?_, ?_⟩
  · intro he h' f' i' d' fuel'
    have hc' : creation_path (after_extraction H h' f' i' d') := hc
    rw [validate_creation_path _ fuel' offset hc']
    exact if_pos he
  · intro he l hl hne i' d'
    have hc' : creation_path (after_location H i' d') := hc
    have hl' : _ckb_locate_first_type_id_output_index (after_location H i' d') fuel = some l := by
      rw [locate_congr (after_location H i' d') H fuel rfl rfl rfl (fun _ => rfl)]
      exact hl
    have he' : ¬ (_ckb_load_type_id (after_location H i' d') offset).1 ≠
        (after_location H i' d').CKB_SUCCESS := fun h => h he
    have hne' : l.1 ≠ (after_location H i' d').CKB_SUCCESS := hne
    rw [validate_creation_path _ fuel offset hc', hl']
    simp only []
    rw [if_neg he']
    exact if_pos hne'
  · intro he l hl hls hin d'
    have hc' : creation_path (after_input_load H d') := hc
    have hl' : _ckb_locate_first_type_id_output_index (after_input_load H d') fuel = some l := by
      rw [locate_congr (after_input_load H d') H fuel rfl rfl rfl (fun _ => rfl)]
      exact hl
    have he' : ¬ (_ckb_load_type_id (after_input_load H d') offset).1 ≠
        (after_input_load H d').CKB_SUCCESS := fun h => h he
    have hls' : ¬ l.1 ≠ (after_input_load H d').CKB_SUCCESS := fun h => h hls
    have hin' : (ckb_checked_load_input (after_input_load H d') 128 0 Source.INPUT).ret ≠
        (after_input_load H d').CKB_SUCCESS := hin
    rw [validate_creation_path _ fuel offset hc', hl']
    simp only []
    rw [if_neg he', if_neg hls']
    exact if_pos hin'
  · intro h1 h2
    simp [ckb_checked_load_input, h1, h2]

theorem C11_failure_aborts_witness :
    (ckb_checked_load_input oversized_input_host 128 0 Source.INPUT).ret =
        oversized_input_host.CKB_LENGTH_NOT_ENOUGH ∧
      ckb_validate_type_id (after_input_load oversized_input_host (fun _ => [])) 1 0 =
        some (ckb_checked_load_input oversized_input_host 128 0 Source.INPUT).ret :=
  ⟨(C11_failure_aborts oversized_input_host 1 0 (by decide)).2.2.2 (by decide) (by decide),
    (C11_failure_aborts oversized_input_host 1 0 (by decide)).2.2.1 (by decide)
      (oversized_input_host.CKB_SUCCESS, some 0) (by decide) rfl (by decide) (fun _ => [])⟩

/-- With a group input at position 0 and no group cell at position 1 the validator
returns success. -/
theorem validate_of_first_input (H : Host) (fuel offset : Nat)
    (h0 : group_cell_exists H 0 Source.GROUP_INPUT)
    (h1 : ¬ group_cell_exists H 1 Source.GROUP_INPUT)
    (h2 : ¬ group_cell_exists H 1 Source.GROUP_OUTPUT) :
    ckb_validate_type_id H fuel offset = some H.CKB_SUCCESS := by
  unfold group_cell_exists at h0 h1 h2
  simp [ckb_validate_type_id, has_type_id_cell_input, has_type_id_cell_output, h0, h1, h2]

/-- The checked load succeeds exactly when the host's load succeeds with a length
within the capacity. -/
theorem checked_load_input_success (H : Host) (cap index : Nat) (source : Source)
    (hle : H.CKB_LENGTH_NOT_ENOUGH ≠ H.CKB_SUCCESS) :
    (ckb_checked_load_input H cap index source).ret = H.CKB_SUCCESS ↔
      (H.load_input cap index source).ret = H.CKB_SUCCESS ∧
        (H.load_input cap index source).len ≤ cap := by
  unfold ckb_checked_load_input
  by_cases h1 : (H.load_input cap index source).ret = H.CKB_SUCCESS
  · by_cases h2 : (H.load_input cap index source).len > cap
    · simp [h1, h2, hle]
    · simp [h1, h2, Nat.le_of_not_gt h2]
  · simp [h1]

/-- A success of the loop comes with a stored index, the error value being other
than success. -/
theorem locate_loop_success_stores (H : Host) (cur : Nat → Nat)
    (hue : H.CKB_USER_ERROR ≠ H.CKB_SUCCESS) :
    ∀ fuel s l, locate_loop H cur fuel s = some l → l.1 = H.CKB_SUCCESS →
      ∃ i, l = (H.CKB_SUCCESS, some i) := by
  intro fuel
  induction fuel with
  | zero => intro s l h; simp [locate_loop] at h
  | succ fuel ih =>
    intro s l h hl
    rw [locate_loop] at h
    split_ifs at h with h1 h2 h3
    · have := Option.some.inj h; subst this; exact absurd hl h1
    · have := Option.some.inj h; subst this; exact absurd hl hue
    · exact ⟨s, (Option.some.inj h).symm⟩
    · exact ih _ l h hl

theorem locate_success_stores (H : Host) (fuel : Nat) (l : Int × Option Nat)
    (hue : H.CKB_USER_ERROR ≠ H.CKB_SUCCESS)
    (h : _ckb_locate_first_type_id_output_index H fuel = some l) (hl : l.1 = H.CKB_SUCCESS) :
    ∃ i, l = (H.CKB_SUCCESS, some i) := by
  simp only [_ckb_locate_first_type_id_output_index] at h
  split_ifs at h with h1 h2
  · have := Option.some.inj h; subst this; exact absurd hl h1
  · have := Option.some.inj h; subst this; exact absurd hl hue
  · exact locate_loop_success_stores H _ hue fuel 0 l h hl

/-- C17: the error values being other than success, `ckb_validate_type_id`
returns success exactly when both probes at position 1 report absent and
either the group-input probe at position 0 reports present, or the extractor
succeeds, the locator succeeds with an index `i`, the first input loads
within 128 bytes and the extracted bytes are the hash of the loaded input
bytes followed by the 8 little-endian bytes of `i`. -/
theorem C17_success_iff (H : Host) (fuel offset : Nat)
    (hue : H.CKB_USER_ERROR ≠ H.CKB_SUCCESS)
    (hle : H.CKB_LENGTH_NOT_ENOUGH ≠ H.CKB_SUCCESS) :
    ckb_validate_type_id H fuel offset = some H.CKB_SUCCESS ↔
      _ckb_has_type_id_cell H 1 1 = 0 ∧ _ckb_has_type_id_cell H 1 0 = 0 ∧
        (_ckb_has_type_id_cell H 0 1 = 1 ∨
          ((_ckb_load_type_id H offset).1 = H.CKB_SUCCESS ∧
            ∃ i, _ckb_locate_first_type_id_output_index H fuel = some (H.CKB_SUCCESS, some i) ∧
              ((H.load_input 128 0 Source.INPUT).ret = H.CKB_SUCCESS ∧
                (H.load_input 128 0 Source.INPUT).len ≤ 128) ∧
              (_ckb_load_type_id H offset).2 = some (H.blake2b_digest
                (read_bytes (H.load_input 128 0 Source.INPUT).mem 0
                  (H.load_input 128 0 Source.INPUT).len ++ le_bytes i 8)))) := by
  have hmem : ∀ i, derived_type_id H i = H.blake2b_digest
      (read_bytes (H.load_input 128 0 Source.INPUT).mem 0
        (H.load_input 128 0 Source.INPUT).len ++ le_bytes i 8) := by
    intro i
    simp only [derived_type_id, first_input_bytes, ckb_checked_load_input]
    split_ifs <;> rfl
  rw [← checked_load_input_success H 128 0 Source.INPUT hle]
  by_cases c1 : group_cell_exists H 1 Source.GROUP_INPUT
  · rw [validate_of_second_cell H fuel offset (Or.inl c1)]
    unfold group_cell_exists at c1
    simp [has_type_id_cell_input, c1, hue]
  by_cases c2 : group_cell_exists H 1 Source.GROUP_OUTPUT
  · rw [validate_of_second_cell H fuel offset (Or.inr c2)]
    unfold group_cell_exists at c2
    simp [has_type_id_cell_output, c2, hue]
  by_cases c3 : group_cell_exists H 0 Source.GROUP_INPUT
  · rw [validate_of_first_input H fuel offset c3 c1 c2]
    unfold group_cell_exists at c1 c2 c3
    simp [has_type_id_cell_input, has_type_id_cell_output, c1, c2, c3]
  rw [validate_creation_path H fuel offset ⟨c1, c2, c3⟩]
  unfold group_cell_exists at c1 c2 c3
  simp only [has_type_id_cell_input, has_type_id_cell_output, c1, c2, c3, if_false, true_and,
    one_ne_zero, zero_ne_one, false_or]
  by_cases he : (_ckb_load_type_id H offset).1 = H.CKB_SUCCESS
  · simp only [he, ne_eq, not_true_eq_false, if_false, true_and]
    cases hl : _ckb_locate_first_type_id_output_index H fuel with
    | none => simp
    | some l =>
      by_cases hls : l.1 = H.CKB_SUCCESS
      · obtain ⟨i, rfl⟩ := locate_success_stores H fuel l hue hl hls
        by_cases hin : (ckb_checked_load_input H 128 0 Source.INPUT).ret = H.CKB_SUCCESS
        · by_cases hid : (_ckb_load_type_id H offset).2 = some (derived_type_id H i)
          · simp [hin, hid, ← hmem]
          · have hid' : ¬ some (derived_type_id H i) = (_ckb_load_type_id H offset).2 :=
              fun h => hid h.symm
            simp [hin, hid, hid', ← hmem, hue]
        · simp [hin]
      · simp only [hls, ne_eq, not_false_eq_true, if_true, Option.some.injEq, false_iff]
        rintro ⟨i, hi, _⟩
        exact hls (by rw [hi])
  · simp [he]

theorem C17_success_iff_witness :
    ckb_validate_type_id second_output_host 2 0 = some second_output_host.CKB_SUCCESS ↔
      _ckb_has_type_id_cell second_output_host 1 1 = 0 ∧
        _ckb_has_type_id_cell second_output_host 1 0 = 0 ∧
        (_ckb_has_type_id_cell second_output_host 0 1 = 1 ∨
          ((_ckb_load_type_id second_output_host 0).1 = second_output_host.CKB_SUCCESS ∧
            ∃ i, _ckb_locate_first_type_id_output_index second_output_host 2 =
                some (second_output_host.CKB_SUCCESS, some i) ∧
              ((second_output_host.load_input 128 0 Source.INPUT).ret =
                  second_output_host.CKB_SUCCESS ∧
                (second_output_host.load_input 128 0 Source.INPUT).len ≤ 128) ∧
              (_ckb_load_type_id second_output_host 0).2 = some (second_output_host.blake2b_digest
                (read_bytes (second_output_host.load_input 128 0 Source.INPUT).mem 0
                  (second_output_host.load_input 128 0 Source.INPUT).len ++ le_bytes i 8)))) :=
  C17_success_iff second_output_host 2 0 (by decide) (by decide)

end TypeId
